import Mathlib

set_option autoImplicit false

/-!
Verification development for the PathPoints repository (src/source/main.py).

The program is a Kivy app whose persistent state lives in small JSON files:
per-category favorites files of shape `{"samples": {sampleName: points, ...}}`
and read-only catalog files of shape `{"subjects": {subjectName: file, ...}}`.
The Python functions `add_favorite`, `remove_favorite`, `get_subject_list` and
the screen-population methods of `PathPointsMain` are embedded below as pure
Lean functions over an explicit file-state type.  Python's `json.load` yields
insertion-ordered dicts, which we model as association lists; `json.dump`
writes the document back verbatim, so file contents are modelled at the level
of parsed JSON values, with distinguished states for a missing file and for
bytes that do not parse as JSON.
-/

namespace PathPoints

/-- JSON values as produced by Python's `json.load`: objects are
insertion-ordered association lists, mirroring Python dicts. -/
inductive JVal where
  | null
  | bool (b : Bool)
  | num (n : Int)
  | str (s : String)
  | arr (elems : List JVal)
  | obj (fields : List (String × JVal))

/-- Python `k in d.keys()` on an insertion-ordered dict. -/
def dictMember {α : Type} (k : String) (d : List (String × α)) : Bool :=
  d.any (fun p => p.fst == k)

/-- Python `d[k]` lookup.  Dicts produced by `json.load` have unique keys, so
taking the first matching entry agrees with Python's lookup. -/
def dictLookup {α : Type} (k : String) (d : List (String × α)) : Option α :=
  (d.find? (fun p => p.fst == k)).map Prod.snd

/-- Python `d[k] = v`: if `k` is already a key the value is updated in place
(keeping the entry's position), otherwise the new entry is appended at the
end, matching dict insertion order. -/
def dictInsert {α : Type} (k : String) (v : α) (d : List (String × α)) :
    List (String × α) :=
  if dictMember k d then d.map (fun p => if p.fst == k then (k, v) else p)
  else d ++ [(k, v)]

/-- Python `del d[k]`: removes the entry for `k`, keeping all others in
order. -/
def dictDelete {α : Type} (k : String) (d : List (String × α)) :
    List (String × α) :=
  d.filter (fun p => !(p.fst == k))

theorem dictLookup_eq_none_of_not_member {α : Type} {k : String}
    {d : List (String × α)} (h : dictMember k d = false) :
    dictLookup k d = none := by
  induction d with
  | nil => rfl
  | cons p t ih =>
    rw [dictMember, List.any_cons, Bool.or_eq_false_iff] at h
    obtain ⟨h1, h2⟩ := h
    rw [dictLookup, List.find?_cons_of_neg _ (by simp [h1])]
    exact ih h2

theorem dictMember_of_lookup {α : Type} {k : String} {d : List (String × α)}
    {v : α} (h : dictLookup k d = some v) : dictMember k d = true := by
  by_contra hc
  rw [Bool.not_eq_true] at hc
  rw [dictLookup_eq_none_of_not_member hc] at h
  exact Option.noConfusion h

theorem dictLookup_insert_self {α : Type} (k : String) (v : α)
    (d : List (String × α)) : dictLookup k (dictInsert k v d) = some v := by
  rw [dictInsert]
  by_cases hm : dictMember k d = true
  · rw [if_pos hm]
    induction d with
    | nil => exact absurd hm (by simp [dictMember])
    | cons p t ih =>
      cases hpk : (p.fst == k) with
      | true =>
        simp only [List.map_cons, hpk, if_true]
        rw [dictLookup, List.find?_cons_of_pos _ (by simp)]
        rfl
      | false =>
        rw [dictMember, List.any_cons, hpk, Bool.false_or] at hm
        simp only [List.map_cons, hpk, if_false]
        rw [dictLookup, List.find?_cons_of_neg _ (by simp [hpk])]
        exact ih hm
  · rw [if_neg hm]
    rw [Bool.not_eq_true] at hm
    induction d with
    | nil =>
      rw [List.nil_append, dictLookup, List.find?_cons_of_pos _ (by simp)]
      rfl
    | cons p t ih =>
      rw [dictMember, List.any_cons, Bool.or_eq_false_iff] at hm
      obtain ⟨h1, h2⟩ := hm
      rw [List.cons_append, dictLookup, List.find?_cons_of_neg _ (by simp [h1])]
      exact ih h2

theorem dictLookup_map_update_ne {α : Type} {k k' : String} (v : α)
    (d : List (String × α)) (h : k' ≠ k) :
    dictLookup k' (d.map (fun p => if p.fst == k then (k, v) else p)) =
      dictLookup k' d := by
  induction d with
  | nil => rfl
  | cons p t ih =>
    cases hpk : (p.fst == k) with
    | true =>
      have hpk' : p.fst = k := by simpa using hpk
      simp only [List.map_cons, hpk, if_true]
      rw [dictLookup, List.find?_cons_of_neg _ (by simp [Ne.symm h]),
        dictLookup, List.find?_cons_of_neg _ (by simp [hpk', Ne.symm h])]
      exact ih
    | false =>
      simp only [List.map_cons, hpk, if_false]
      cases hp' : (p.fst == k') with
      | true =>
        rw [dictLookup, List.find?_cons_of_pos _ (by simp [hp']),
          dictLookup, List.find?_cons_of_pos _ (by simp [hp'])]
        simp
      | false =>
        rw [dictLookup, List.find?_cons_of_neg _ (by simp [hp']),
          dictLookup, List.find?_cons_of_neg _ (by simp [hp'])]
        exact ih

theorem dictLookup_append_single_ne {α : Type} {k k' : String} (v : α)
    (d : List (String × α)) (h : k' ≠ k) :
    dictLookup k' (d ++ [(k, v)]) = dictLookup k' d := by
  induction d with
  | nil =>
    rw [List.nil_append, dictLookup, List.find?_cons_of_neg _ (by simp [Ne.symm h])]
    rfl
  | cons p t ih =>
    cases hp' : (p.fst == k') with
    | true =>
      rw [List.cons_append, dictLookup, List.find?_cons_of_pos _ (by simp [hp']),
        dictLookup, List.find?_cons_of_pos _ (by simp [hp'])]
    | false =>
      rw [List.cons_append, dictLookup, List.find?_cons_of_neg _ (by simp [hp']),
        dictLookup, List.find?_cons_of_neg _ (by simp [hp'])]
      exact ih

theorem dictLookup_insert_ne {α : Type} {k k' : String} (v : α)
    (d : List (String × α)) (h : k' ≠ k) :
    dictLookup k' (dictInsert k v d) = dictLookup k' d := by
  rw [dictInsert]
  by_cases hm : dictMember k d = true
  · rw [if_pos hm]
    exact dictLookup_map_update_ne v d h
  · rw [if_neg hm]
    exact dictLookup_append_single_ne v d h

theorem dictLookup_append_left {α : Type} {k : String} {d : List (String × α)}
    {v : α} (e : List (String × α)) (h : dictLookup k d = some v) :
    dictLookup k (d ++ e) = some v := by
  induction d with
  | nil => exact absurd h (by simp [dictLookup])
  | cons p t ih =>
    cases hp : (p.fst == k) with
    | true =>
      rw [dictLookup, List.find?_cons_of_pos _ (by simp [hp])] at h
      rw [List.cons_append, dictLookup, List.find?_cons_of_pos _ (by simp [hp])]
      exact h
    | false =>
      rw [dictLookup, List.find?_cons_of_neg _ (by simp [hp])] at h
      rw [List.cons_append, dictLookup, List.find?_cons_of_neg _ (by simp [hp])]
      exact ih h

theorem dictDelete_of_not_member {α : Type} {k : String}
    {d : List (String × α)} (h : dictMember k d = false) :
    dictDelete k d = d := by
  induction d with
  | nil => rfl
  | cons p t ih =>
    rw [dictMember, List.any_cons, Bool.or_eq_false_iff] at h
    obtain ⟨h1, h2⟩ := h
    rw [dictDelete, List.filter_cons_of_pos (by simp [h1])]
    rw [dictDelete] at ih
    rw [ih h2]

/-- State of one JSON file on disk: missing, bytes that do not parse as JSON,
or a parsed JSON document (contents at the level of Python's `json` module,
which round-trips parsed documents verbatim through `dump`/`load`). -/
inductive FileState where
  | missing
  | malformed
  | json (v : JVal)

/-- Python exceptions that the embedded operations can raise. -/
inductive PyError where
  | fileNotFoundError
  | jsonDecodeError
  | keyError
  | typeError
  | attributeError

/-- Outcome of one call to `add_favorite` / `remove_favorite`: the contents of
`json_file` once the call returns or raises, whether `open(json_file, "w")`
was executed, and the exception propagated to the caller, if any.  Every
raising path of the Python code raises before the file is opened for writing,
so on those paths the file keeps its previous contents. -/
structure FavResult where
  file : FileState
  wrote : Bool
  error : Option PyError

/-- Embedding of `add_favorite` (src/source/main.py lines 35-48).  The pressed
Button widget and the trailing *args / **kwargs do not influence the file and
are omitted.  Raising paths: a missing file fails at `open(json_file, "r")`
with FileNotFoundError, non-JSON bytes fail in `json.load` with
JSONDecodeError, a non-dict document fails at `favorites_json["samples"]` with
TypeError, a dict lacking a "samples" key with KeyError, and a non-dict
"samples" value at `.keys()` with AttributeError.  Otherwise: if
`subject_name` is already a key of the "samples" dict the function returns
without writing; else it sets `favorites_json["samples"][subject_name] =
points` (mutating the inner dict in place, so the outer document keeps the
"samples" entry at its position with all other fields untouched) and dumps
the whole document back to the file. -/
def add_favorite (subject_name : String) (points : JVal) (fs : FileState) :
    FavResult :=
  match fs with
  | .missing => ⟨fs, false, some .fileNotFoundError⟩
  | .malformed => ⟨fs, false, some .jsonDecodeError⟩
  | .json (.obj fields) =>
    match dictLookup "samples" fields with
    | some (.obj samples) =>
      if dictMember subject_name samples then ⟨fs, false, none⟩
      else
        ⟨.json (.obj (dictInsert "samples"
            (.obj (dictInsert subject_name points samples)) fields)),
          true, none⟩
    | some _ => ⟨fs, false, some .attributeError⟩
    | none => ⟨fs, false, some .keyError⟩
  | .json _ => ⟨fs, false, some .typeError⟩

/-- Embedding of `remove_favorite` (src/source/main.py lines 50-63), with the
same raising paths as `add_favorite`.  If `subject_name` is not a key of the
"samples" dict the function returns without writing; else it deletes the key
and dumps the whole document back to the file. -/
def remove_favorite (subject_name : String) (fs : FileState) : FavResult :=
  match fs with
  | .missing => ⟨fs, false, some .fileNotFoundError⟩
  | .malformed => ⟨fs, false, some .jsonDecodeError⟩
  | .json (.obj fields) =>
    match dictLookup "samples" fields with
    | some (.obj samples) =>
      if dictMember subject_name samples then
        ⟨.json (.obj (dictInsert "samples"
            (.obj (dictDelete subject_name samples)) fields)), true, none⟩
      else ⟨fs, false, none⟩
    | some _ => ⟨fs, false, some .attributeError⟩
    | none => ⟨fs, false, some .keyError⟩
  | .json _ => ⟨fs, false, some .typeError⟩

/-- The "samples" mapping persisted in a favorites file, when the file parses
as a JSON object whose "samples" field is itself an object. -/
def favoritesSamples (fs : FileState) : Option (List (String × JVal)) :=
  match fs with
  | .json (.obj fields) =>
    match dictLookup "samples" fields with
    | some (.obj samples) => some samples
    | _ => none
  | _ => none

/-- A user-level favorites operation. -/
inductive FavOp where
  | add (name : String) (points : JVal)
  | remove (name : String)

/-- Effect of one operation on the favorites file. -/
def applyFavOp (fs : FileState) (op : FavOp) : FileState :=
  match op with
  | .add n p => (add_favorite n p fs).file
  | .remove n => (remove_favorite n fs).file

/-- Effect of a sequence of operations on the favorites file. -/
def runFavOps (fs : FileState) (ops : List FavOp) : FileState :=
  ops.foldl applyFavOp fs

/-- Specification-side model for the refinement claim, following the spec's
words: one step of replaying the operations as insert-if-absent /
delete-if-present on an in-memory dictionary. -/
def specApplyFavOp (m : List (String × JVal)) (op : FavOp) :
    List (String × JVal) :=
  match op with
  | .add n p => if dictMember n m then m else m ++ [(n, p)]
  | .remove n => if dictMember n m then dictDelete n m else m

/-- Specification-side model: replay of a whole operation sequence on an
in-memory dictionary. -/
def specReplay (m : List (String × JVal)) (ops : List FavOp) :
    List (String × JVal) :=
  ops.foldl specApplyFavOp m

theorem favoritesSamples_applyFavOp (fs : FileState)
    (m : List (String × JVal)) (op : FavOp)
    (h : favoritesSamples fs = some m) :
    favoritesSamples (applyFavOp fs op) = some (specApplyFavOp m op) := by
  cases fs with
  | missing => simp [favoritesSamples] at h
  | malformed => simp [favoritesSamples] at h
  | json v =>
    cases v with
    | null => simp [favoritesSamples] at h
    | bool b => simp [favoritesSamples] at h
    | num n => simp [favoritesSamples] at h
    | str s => simp [favoritesSamples] at h
    | arr elems => simp [favoritesSamples] at h
    | obj fields =>
      cases hl : dictLookup "samples" fields with
      | none => simp [favoritesSamples, hl] at h
      | some sv =>
        cases sv with
        | obj samples =>
          simp only [favoritesSamples, hl, Option.some_inj] at h
          subst h
          cases op with
          | add n p =>
            by_cases hm : dictMember n samples = true
            · simp only [applyFavOp, add_favorite, hl, hm, if_true,
                specApplyFavOp, favoritesSamples]
            · rw [Bool.not_eq_true] at hm
              simp only [applyFavOp, add_favorite, hl, hm, Bool.false_eq_true,
                if_false, specApplyFavOp, favoritesSamples,
                dictLookup_insert_self]
              rw [dictInsert, hm, if_neg (by simp)]
          | remove n =>
            by_cases hm : dictMember n samples = true
            · simp only [applyFavOp, remove_favorite, hl, hm, if_true,
                specApplyFavOp, favoritesSamples, dictLookup_insert_self]
            · rw [Bool.not_eq_true] at hm
              simp only [applyFavOp, remove_favorite, hl, hm,
                Bool.false_eq_true, if_false, specApplyFavOp, favoritesSamples]
        | null => simp [favoritesSamples, hl] at h
        | bool b => simp [favoritesSamples, hl] at h
        | num n => simp [favoritesSamples, hl] at h
        | str s => simp [favoritesSamples, hl] at h
        | arr elems => simp [favoritesSamples, hl] at h

theorem favoritesSamples_runFavOps (fs : FileState)
    (m : List (String × JVal)) (ops : List FavOp)
    (h : favoritesSamples fs = some m) :
    favoritesSamples (runFavOps fs ops) = some (specReplay m ops) := by
  induction ops generalizing fs m with
  | nil => exact h
  | cons op t ih =>
    exact ih (applyFavOp fs op) (specApplyFavOp m op)
      (favoritesSamples_applyFavOp fs m op h)

theorem favoritesSamples_inv (fs : FileState) (m : List (String × JVal))
    (h : favoritesSamples fs = some m) :
    ∃ fields, fs = .json (.obj fields) ∧
      dictLookup "samples" fields = some (.obj m) := by
  cases fs with
  | missing => simp [favoritesSamples] at h
  | malformed => simp [favoritesSamples] at h
  | json v =>
    cases v with
    | null => simp [favoritesSamples] at h
    | bool b => simp [favoritesSamples] at h
    | num n => simp [favoritesSamples] at h
    | str s => simp [favoritesSamples] at h
    | arr elems => simp [favoritesSamples] at h
    | obj fields =>
      refine ⟨fields, rfl, ?_⟩
      cases hl : dictLookup "samples" fields with
      | none => simp [favoritesSamples, hl] at h
      | some sv =>
        cases sv with
        | obj samples =>
          simp only [favoritesSamples, hl, Option.some_inj] at h
          rw [h]
        | null => simp [favoritesSamples, hl] at h
        | bool b => simp [favoritesSamples, hl] at h
        | num n => simp [favoritesSamples, hl] at h
        | str s => simp [favoritesSamples, hl] at h
        | arr elems => simp [favoritesSamples, hl] at h

/-- C1: for every finite sequence of add_favorite / remove_favorite
operations applied to a favorites file, the mapping stored in the file's
"samples" field after each operation (every prefix of the sequence is an
instance of `ops`) equals the mapping obtained by replaying the same sequence
of insert-if-absent / delete-if-present operations on an in-memory dictionary
starting from the file's initial contents. -/
theorem claim_C1_store_refines_replay (fs : FileState)
    (m : List (String × JVal)) (ops : List FavOp)
    (h : favoritesSamples fs = some m) :
    favoritesSamples (runFavOps fs ops) = some (specReplay m ops) :=
  favoritesSamples_runFavOps fs m ops h

theorem claim_C1_store_refines_replay_witness :
    favoritesSamples (runFavOps (.json (.obj [("samples", .obj [])]))
        [.add "Skin biopsy" (.num 5), .add "Skin biopsy" (.num 5),
          .remove "Skin biopsy"]) =
      some (specReplay []
        [.add "Skin biopsy" (.num 5), .add "Skin biopsy" (.num 5),
          .remove "Skin biopsy"]) :=
  claim_C1_store_refines_replay (.json (.obj [("samples", .obj [])])) []
    [.add "Skin biopsy" (.num 5), .add "Skin biopsy" (.num 5),
      .remove "Skin biopsy"] rfl

/-- C4: for every favorites file state whose "samples" mapping already has
`subject_name` as a key, `add_favorite subject_name points` is a no-op for
any points argument: the call returns the file unchanged, performs no write,
and raises nothing. -/
theorem claim_C4_add_existing_noop (fs : FileState)
    (m : List (String × JVal)) (subject_name : String) (points : JVal)
    (hs : favoritesSamples fs = some m)
    (hm : dictMember subject_name m = true) :
    add_favorite subject_name points fs = ⟨fs, false, none⟩ := by
  obtain ⟨fields, rfl, hl⟩ := favoritesSamples_inv fs m hs
  simp only [add_favorite, hl, hm, if_true]

theorem claim_C4_add_existing_noop_witness :
    add_favorite "Skin biopsy" (.num 7)
        (.json (.obj [("samples", .obj [("Skin biopsy", .num 5)])])) =
      ⟨.json (.obj [("samples", .obj [("Skin biopsy", .num 5)])]),
        false, none⟩ :=
  claim_C4_add_existing_noop
    (.json (.obj [("samples", .obj [("Skin biopsy", .num 5)])]))
    [("Skin biopsy", .num 5)] "Skin biopsy" (.num 7) rfl rfl

/-- C5: for every favorites file state whose "samples" mapping does not have
`subject_name` as a key, `remove_favorite subject_name` is a no-op: the call
returns the file unchanged, performs no write, and raises nothing. -/
theorem claim_C5_remove_absent_noop (fs : FileState)
    (m : List (String × JVal)) (subject_name : String)
    (hs : favoritesSamples fs = some m)
    (hm : dictMember subject_name m = false) :
    remove_favorite subject_name fs = ⟨fs, false, none⟩ := by
  obtain ⟨fields, rfl, hl⟩ := favoritesSamples_inv fs m hs
  simp only [remove_favorite, hl, hm, Bool.false_eq_true, if_false]

theorem claim_C5_remove_absent_noop_witness :
    remove_favorite "Lung biopsy"
        (.json (.obj [("samples", .obj [("Skin biopsy", .num 5)])])) =
      ⟨.json (.obj [("samples", .obj [("Skin biopsy", .num 5)])]),
        false, none⟩ :=
  claim_C5_remove_absent_noop
    (.json (.obj [("samples", .obj [("Skin biopsy", .num 5)])]))
    [("Skin biopsy", .num 5)] "Lung biopsy" rfl rfl

/-- C6: for every favorites file whose "samples" mapping does not contain
`subject_name`, `add_favorite subject_name points` rewrites the file so that
the new "samples" mapping equals the old mapping extended with the single
binding `subject_name -> points` appended at the end; the new key maps to
`points` and every pre-existing binding is preserved with its original
value. -/
theorem claim_C6_add_new_extends (fs : FileState)
    (m : List (String × JVal)) (subject_name : String) (points : JVal)
    (hs : favoritesSamples fs = some m)
    (hm : dictMember subject_name m = false) :
    (add_favorite subject_name points fs).wrote = true ∧
    favoritesSamples (add_favorite subject_name points fs).file =
      some (m ++ [(subject_name, points)]) ∧
    dictLookup subject_name (m ++ [(subject_name, points)]) = some points ∧
    (∀ k v, dictLookup k m = some v →
      dictLookup k (m ++ [(subject_name, points)]) = some v) := by
  obtain ⟨fields, rfl, hl⟩ := favoritesSamples_inv fs m hs
  have hins : dictInsert subject_name points m = m ++ [(subject_name, points)] := by
    rw [dictInsert, hm, if_neg (by simp)]
  refine ⟨?_, ?_, ?_, ?_⟩
  · simp only [add_favorite, hl, hm, Bool.false_eq_true, if_false]
  · simp only [add_favorite, hl, hm, Bool.false_eq_true, if_false,
      favoritesSamples, dictLookup_insert_self, hins]
  · rw [← hins]
    exact dictLookup_insert_self subject_name points m
  · intro k v hkv
    exact dictLookup_append_left _ hkv

theorem claim_C6_add_new_extends_witness :
    (add_favorite "Lung biopsy" (.num 3)
        (.json (.obj [("samples", .obj [("Skin biopsy", .num 5)])]))).wrote
        = true ∧
    favoritesSamples (add_favorite "Lung biopsy" (.num 3)
        (.json (.obj [("samples", .obj [("Skin biopsy", .num 5)])]))).file =
      some [("Skin biopsy", .num 5), ("Lung biopsy", .num 3)] ∧
    dictLookup "Lung biopsy"
        [("Skin biopsy", JVal.num 5), ("Lung biopsy", JVal.num 3)] =
      some (.num 3) ∧
    (∀ k v, dictLookup k [("Skin biopsy", JVal.num 5)] = some v →
      dictLookup k [("Skin biopsy", JVal.num 5), ("Lung biopsy", JVal.num 3)]
        = some v) :=
  claim_C6_add_new_extends
    (.json (.obj [("samples", .obj [("Skin biopsy", .num 5)])]))
    [("Skin biopsy", .num 5)] "Lung biopsy" (.num 3) rfl rfl

/-- A favorites file is well-formed when it parses as a JSON object whose
"samples" field is itself an object; exactly then neither store operation
raises. -/
def hasSamplesObj (fs : FileState) : Bool :=
  (favoritesSamples fs).isSome

/-- C8: whenever the favorites file is missing or its contents are malformed
(not JSON, not a JSON object, or lacking a "samples" object), add_favorite
and remove_favorite fail by propagating an exception to the caller, perform
no write, and leave the file contents unchanged. -/
theorem claim_C8_error_propagation (subject_name : String) (points : JVal)
    (fs : FileState) (h : hasSamplesObj fs = false) :
    ((add_favorite subject_name points fs).error.isSome = true ∧
      (add_favorite subject_name points fs).file = fs ∧
      (add_favorite subject_name points fs).wrote = false) ∧
    ((remove_favorite subject_name fs).error.isSome = true ∧
      (remove_favorite subject_name fs).file = fs ∧
      (remove_favorite subject_name fs).wrote = false) := by
  cases fs with
  | missing => exact ⟨⟨rfl, rfl, rfl⟩, ⟨rfl, rfl, rfl⟩⟩
  | malformed => exact ⟨⟨rfl, rfl, rfl⟩, ⟨rfl, rfl, rfl⟩⟩
  | json v =>
    cases v with
    | null => exact ⟨⟨rfl, rfl, rfl⟩, ⟨rfl, rfl, rfl⟩⟩
    | bool b => exact ⟨⟨rfl, rfl, rfl⟩, ⟨rfl, rfl, rfl⟩⟩
    | num n => exact ⟨⟨rfl, rfl, rfl⟩, ⟨rfl, rfl, rfl⟩⟩
    | str s => exact ⟨⟨rfl, rfl, rfl⟩, ⟨rfl, rfl, rfl⟩⟩
    | arr elems => exact ⟨⟨rfl, rfl, rfl⟩, ⟨rfl, rfl, rfl⟩⟩
    | obj fields =>
      cases hl : dictLookup "samples" fields with
      | none =>
        simp [add_favorite, remove_favorite, hl]
      | some sv =>
        cases sv with
        | obj samples =>
          exact absurd h (by simp [hasSamplesObj, favoritesSamples, hl])
        | null =>
          simp [add_favorite, remove_favorite, hl]
        | bool b =>
          simp [add_favorite, remove_favorite, hl]
        | num n =>
          simp [add_favorite, remove_favorite, hl]
        | str s =>
          simp [add_favorite, remove_favorite, hl]
        | arr elems =>
          simp [add_favorite, remove_favorite, hl]

theorem claim_C8_error_propagation_witness :
    ((add_favorite "Skin biopsy" (.num 5) .malformed).error.isSome = true ∧
      (add_favorite "Skin biopsy" (.num 5) .malformed).file = .malformed ∧
      (add_favorite "Skin biopsy" (.num 5) .malformed).wrote = false) ∧
    ((remove_favorite "Skin biopsy" .malformed).error.isSome = true ∧
      (remove_favorite "Skin biopsy" .malformed).file = .malformed ∧
      (remove_favorite "Skin biopsy" .malformed).wrote = false) :=
  claim_C8_error_propagation "Skin biopsy" (.num 5) .malformed rfl

/-- The full-file rewrite performed by the favorites store: `json.dump`
writes the whole parsed document back to the favorites file. -/
def dumpFavoritesFile (doc : List (String × JVal)) : FileState :=
  .json (.obj doc)

/-- C9: round-trip — writing a favorites document through the store's
full-file rewrite and then reading the "samples" mapping back (as the store
and the favorites screen do) yields a mapping with exactly the same
key-value pairs as the in-memory one: every key maps to its original value
(in this store key order is even preserved exactly). -/
theorem claim_C9_roundtrip (doc m : List (String × JVal))
    (h : dictLookup "samples" doc = some (.obj m)) :
    ∃ m', favoritesSamples (dumpFavoritesFile doc) = some m' ∧
      ∀ k, dictLookup k m' = dictLookup k m := by
  refine ⟨m, ?_, fun k => rfl⟩
  simp [dumpFavoritesFile, favoritesSamples, h]

theorem claim_C9_roundtrip_witness :
    ∃ m', favoritesSamples (dumpFavoritesFile
        [("samples", .obj [("Skin biopsy", .num 5)])]) = some m' ∧
      ∀ k, dictLookup k m' = dictLookup k [("Skin biopsy", JVal.num 5)] :=
  claim_C9_roundtrip [("samples", .obj [("Skin biopsy", .num 5)])]
    [("Skin biopsy", .num 5)] rfl

/-- The value of top-level field `k` of the JSON document stored in the
file. -/
def topField (k : String) (fs : FileState) : Option JVal :=
  match fs with
  | .json (.obj fields) => dictLookup k fields
  | _ => none

/-- C10: frame — add_favorite and remove_favorite preserve every top-level
field of the favorites JSON document other than "samples": any top-level key
other than "samples" maps to the same value after the call as before, on
every file state (mutating calls rewrite the whole document with only the
"samples" entry modified; non-mutating and raising calls leave the file as
it was). -/
theorem claim_C10_frame (subject_name : String) (points : JVal)
    (fs : FileState) (k : String) (hk : k ≠ "samples") :
    topField k (add_favorite subject_name points fs).file = topField k fs ∧
    topField k (remove_favorite subject_name fs).file = topField k fs := by
  cases fs with
  | missing => exact ⟨rfl, rfl⟩
  | malformed => exact ⟨rfl, rfl⟩
  | json v =>
    cases v with
    | null => exact ⟨rfl, rfl⟩
    | bool b => exact ⟨rfl, rfl⟩
    | num n => exact ⟨rfl, rfl⟩
    | str s => exact ⟨rfl, rfl⟩
    | arr elems => exact ⟨rfl, rfl⟩
    | obj fields =>
      cases hl : dictLookup "samples" fields with
      | none =>
        simp [add_favorite, remove_favorite, hl]
      | some sv =>
        cases sv with
        | obj samples =>
          constructor
          · by_cases hm : dictMember subject_name samples = true
            · simp [add_favorite, hl, hm]
            · rw [Bool.not_eq_true] at hm
              simp only [add_favorite, hl, hm, Bool.false_eq_true, if_false,
                topField]
              exact dictLookup_insert_ne _ fields hk
          · by_cases hm : dictMember subject_name samples = true
            · simp only [remove_favorite, hl, hm, if_true, topField]
              exact dictLookup_insert_ne _ fields hk
            · rw [Bool.not_eq_true] at hm
              simp [remove_favorite, hl, hm]
        | null =>
          simp [add_favorite, remove_favorite, hl]
        | bool b =>
          simp [add_favorite, remove_favorite, hl]
        | num n =>
          simp [add_favorite, remove_favorite, hl]
        | str s =>
          simp [add_favorite, remove_favorite, hl]
        | arr elems =>
          simp [add_favorite, remove_favorite, hl]

theorem claim_C10_frame_witness :
    topField "lastEdited" (add_favorite "Lung biopsy" (.num 3)
        (.json (.obj [("lastEdited", .str "2024-01-01"),
          ("samples", .obj [("Skin biopsy", .num 5)])]))).file =
      topField "lastEdited"
        (.json (.obj [("lastEdited", .str "2024-01-01"),
          ("samples", .obj [("Skin biopsy", .num 5)])])) ∧
    topField "lastEdited" (remove_favorite "Lung biopsy"
        (.json (.obj [("lastEdited", .str "2024-01-01"),
          ("samples", .obj [("Skin biopsy", .num 5)])]))).file =
      topField "lastEdited"
        (.json (.obj [("lastEdited", .str "2024-01-01"),
          ("samples", .obj [("Skin biopsy", .num 5)])])) :=
  claim_C10_frame "Lung biopsy" (.num 3)
    (.json (.obj [("lastEdited", .str "2024-01-01"),
      ("samples", .obj [("Skin biopsy", .num 5)])]))
    "lastEdited" (by decide)

/-- Embedding of `get_subject_list` (src/source/main.py lines 29-33): opens
the category's catalog file, parses it with `json.load`, and returns the
value of its "subjects" field (an insertion-ordered dict mapping subject
name to that subject's sample file).  A missing file raises
FileNotFoundError, non-JSON bytes raise JSONDecodeError, a non-dict document
raises TypeError at the subscript, and a dict lacking a "subjects" key
raises KeyError. -/
def get_subject_list (fs : FileState) : Except PyError JVal :=
  match fs with
  | .missing => .error .fileNotFoundError
  | .malformed => .error .jsonDecodeError
  | .json (.obj fields) =>
    match dictLookup "subjects" fields with
    | some v => .ok v
    | none => .error .keyError
  | .json _ => .error .typeError

/-- The ordered sequence of names obtained by iterating a parsed JSON dict,
as the callers of `get_subject_list` do with `subjects_dict.items()`: the
keys in file (insertion) order. -/
def objKeys : JVal → Option (List String)
  | .obj fields => some (fields.map Prod.fst)
  | _ => none

/-- C7: for every category whose catalog file parses as a JSON object with a
"subjects" object, `get_subject_list` returns exactly that object, and the
ordered sequence of subject names obtained from the returned value is
exactly the names listed in the file, in file order. -/
theorem claim_C7_subject_list (fields subs : List (String × JVal))
    (h : dictLookup "subjects" fields = some (.obj subs)) :
    get_subject_list (.json (.obj fields)) = .ok (.obj subs) ∧
    (get_subject_list (.json (.obj fields))).toOption.bind objKeys =
      some (subs.map Prod.fst) := by
  simp [get_subject_list, h, objKeys, Except.toOption]

theorem claim_C7_subject_list_witness :
    get_subject_list (.json (.obj [("subjects",
        .obj [("Hud", .str "hud.json"), ("Lunga", .str "lunga.json"),
          ("Njure", .str "njure.json")])])) =
      .ok (.obj [("Hud", .str "hud.json"), ("Lunga", .str "lunga.json"),
        ("Njure", .str "njure.json")]) ∧
    (get_subject_list (.json (.obj [("subjects",
        .obj [("Hud", .str "hud.json"), ("Lunga", .str "lunga.json"),
          ("Njure", .str "njure.json")])]))).toOption.bind objKeys =
      some ([("Hud", JVal.str "hud.json"), ("Lunga", JVal.str "lunga.json"),
        ("Njure", JVal.str "njure.json")].map Prod.fst) :=
  claim_C7_subject_list
    [("subjects", .obj [("Hud", .str "hud.json"),
      ("Lunga", .str "lunga.json"), ("Njure", .str "njure.json")])]
    [("Hud", .str "hud.json"), ("Lunga", .str "lunga.json"),
      ("Njure", .str "njure.json")] rfl

/-- One row of a favorites screen as laid out by
`PathPointsMain.refresh_favorite` (src/source/main.py lines 116-136): a label
with the sample name, "+" and "-" buttons, and a "Ta bort" button whose
on_press is bound with `functools.partial` to `remove_favorite` with keyword
argument `subject_name=sample`; `functools.partial` stores the argument's
current value at bind time, so the bound sample name is captured by value. -/
structure FavRow where
  label : String
  removeBoundSample : String

/-- Embedding of `PathPointsMain.refresh_favorite` (src/source/main.py lines
116-136): clears the favorites grid, re-reads the favorites file from disk,
and renders one row per entry of its "samples" mapping, in dict (file)
order.  Raising paths mirror the store's: FileNotFoundError at `open`,
JSONDecodeError in `json.load`, TypeError subscripting a non-dict document,
KeyError for a missing "samples" key, AttributeError iterating a non-dict
"samples" value with `.items()`. -/
def refresh_favorite (fs : FileState) : Except PyError (List FavRow) :=
  match fs with
  | .missing => .error .fileNotFoundError
  | .malformed => .error .jsonDecodeError
  | .json (.obj fields) =>
    match dictLookup "samples" fields with
    | some (.obj samples) =>
      .ok (samples.map (fun p => (⟨p.fst, p.fst⟩ : FavRow)))
    | some _ => .error .attributeError
    | none => .error .keyError
  | .json _ => .error .typeError

/-- Modelled from the spec: the kv layout file `pathpoints.kv`, which defines
the screens and their event wiring, is part of the repository but not under
src/.  Per the spec, a favorites screen is regenerated "every time those
screens are selected/entered": entering (or re-entering) a favorites screen
invokes `refresh_favorite` on the category's favorites file, so the rows
rendered on entry are exactly `refresh_favorite` of the current on-disk
state, with no cache carried over from startup. -/
def enter_favorites_screen (fs : FileState) : Except PyError (List FavRow) :=
  refresh_favorite fs

/-- C2: whenever a favorites screen is entered or re-entered — here after an
arbitrary sequence of add/remove mutations since the screen was last seen —
the rows rendered equal the mapping currently persisted in that category's
favorites file (one row per entry, in order, labelled with the sample name
and with that same name bound by value to the row's remove button), not the
mapping that was on disk at startup. -/
theorem claim_C2_fresh_render (fs : FileState) (m : List (String × JVal))
    (h : favoritesSamples fs = some m) (ops : List FavOp) :
    enter_favorites_screen (runFavOps fs ops) =
      .ok ((specReplay m ops).map (fun p => (⟨p.fst, p.fst⟩ : FavRow))) := by
  have h2 := favoritesSamples_runFavOps fs m ops h
  obtain ⟨fields, he, hl⟩ := favoritesSamples_inv _ _ h2
  rw [he]
  simp [enter_favorites_screen, refresh_favorite, hl]

theorem claim_C2_fresh_render_witness :
    enter_favorites_screen (runFavOps (.json (.obj [("samples", .obj [])]))
        [.add "Skin biopsy" (.num 5)]) =
      .ok ((specReplay [] [.add "Skin biopsy" (.num 5)]).map
        (fun p => (⟨p.fst, p.fst⟩ : FavRow))) :=
  claim_C2_fresh_render (.json (.obj [("samples", .obj [])])) [] rfl
    [.add "Skin biopsy" (.num 5)]

/-- A subject button created by the loop in
`PathPointsMain.initialize_subscreens` (src/source/main.py lines 106-114):
its text and the `subject_file` argument its on_press callback passes to
`view_subject` when the button is pressed (pressing necessarily happens
after `initialize_subscreens` has returned). -/
structure SubjectButton where
  text : String
  pressArg : Option JVal

/-- Buttons created by `for subject, subject_file in subjects_dict.items():`
with `subject_button.bind(on_press=lambda x: self.view_subject(subject_file,
diagnostic))`.  The lambda's body reads the free variable `subject_file`
from the enclosing function's scope when the button is pressed; Python
closures capture variables, not values, so every callback sees the value the
loop variable holds after the final iteration — the last entry's value.
For an empty dict the loop body never runs and no buttons are created. -/
def initialize_subscreens_buttons (subjects_dict : List (String × JVal)) :
    List SubjectButton :=
  subjects_dict.map
    (fun p => { text := p.fst,
                pressArg := (subjects_dict.getLast?).map Prod.snd })

/-- The binding claim C3 describes: each row's callback receives that row's
own entry, captured by value at bind time. -/
def byValueButtons (subjects_dict : List (String × JVal)) :
    List SubjectButton :=
  subjects_dict.map (fun p => { text := p.fst, pressArg := some p.snd })

/-- C3 fails on the code: with a two-subject catalog, the first row's button
created by `initialize_subscreens` passes the last entry's file
("lunga.json") to `view_subject`, not its own row's file ("hud.json") that
by-value capture would pass — the classic closure-over-loop-variable bug.
(The other two listing loops, in `refresh_favorite` and `view_subject`, do
capture the row's key by value via `functools.partial` / `fbind` keyword
arguments, which is why the spec states by-value capture as the intent.) -/
theorem claim_C3_loop_capture_bug :
    initialize_subscreens_buttons
        [("Hud", .str "hud.json"), ("Lunga", .str "lunga.json")] =
      [{ text := "Hud", pressArg := some (.str "lunga.json") },
        { text := "Lunga", pressArg := some (.str "lunga.json") }] ∧
    byValueButtons
        [("Hud", .str "hud.json"), ("Lunga", .str "lunga.json")] =
      [{ text := "Hud", pressArg := some (.str "hud.json") },
        { text := "Lunga", pressArg := some (.str "lunga.json") }] :=
  ⟨rfl, rfl⟩
